import Mathlib

/-
Verification development for the remote-agent repository (src/agent.py).

The agent's data and control flow are shallowly embedded: Python dictionaries,
lists and scalars become the inductive `PyVal`; the plugin registry becomes an
association list from names to modules; fallible effects (HTTP fetches, file
writes, `exec` of plugin code, JSON parsing) are threaded as explicit
environment parameters returning `Except`/`Bool` outcomes, so that every
definition is executable.  The SHA-256 function itself is opaque to the
agent's control flow (only equality of digest strings matters), so it is a
parameter `hash` of the environment.
-/

namespace AgentModel

/-- Embedded Python values: None, booleans, integers, strings, lists and
string-keyed dictionaries (as ordered association lists, matching Python's
insertion-ordered dicts). -/
inductive PyVal where
  | vNone : PyVal
  | vBool : Bool → PyVal
  | vInt : Int → PyVal
  | vStr : String → PyVal
  | vList : List PyVal → PyVal
  | vDict : List (String × PyVal) → PyVal

open PyVal

/-- Python truthiness of an embedded value. -/
def truthy : PyVal → Bool
  | .vNone => false
  | .vBool b => b
  | .vInt n => decide (n ≠ 0)
  | .vStr s => decide (s ≠ "")
  | .vList xs => !xs.isEmpty
  | .vDict d => !d.isEmpty

/-- Model of `d.get(k)` (returning `None` as `Option.none`): defined on dicts
only; any other receiver has no `get` attribute in Python. -/
def pyGet : PyVal → String → Option PyVal
  | .vDict d, k => d.lookup k
  | _, _ => Option.none

/-- Insert-or-replace in an ordered association list, keeping the original
position of an existing key and appending a new key at the end — Python dict
assignment semantics. -/
def setEntry {α : Type} : List (String × α) → String → α → List (String × α)
  | [], k, v => [(k, v)]
  | (k0, v0) :: rest, k, v =>
    if k0 = k then (k, v) :: rest else (k0, v0) :: setEntry rest k v

mutual

/-- Python `repr` of an embedded value (used inside list/dict rendering). -/
def pyRepr : PyVal → String
  | .vNone => "None"
  | .vBool true => "True"
  | .vBool false => "False"
  | .vInt n => toString n
  | .vStr s => "\x27" ++ s ++ "\x27"
  | .vList xs => "[" ++ String.intercalate ", " (pyReprList xs) ++ "]"
  | .vDict d => "\x7b" ++ String.intercalate ", " (pyReprPairs d) ++ "\x7d"

/-- Renders each element of a Python list. -/
def pyReprList : List PyVal → List String
  | [] => []
  | x :: xs => pyRepr x :: pyReprList xs

/-- Renders each key/value pair of a Python dict. -/
def pyReprPairs : List (String × PyVal) → List String
  | [] => []
  | (k, v) :: rest => ("\x27" ++ k ++ "\x27: " ++ pyRepr v) :: pyReprPairs rest

end

/-- Python `str()` of an embedded value (as used by f-string interpolation). -/
def pyToString : PyVal → String
  | .vStr s => s
  | v => pyRepr v

/-- Python `repr` of a list of strings, as produced by
`f"{list(self.plugins.keys())}"` in the source. -/
def reprStrList (xs : List String) : String :=
  "[" ++ String.intercalate ", " (xs.map (fun s => "\x27" ++ s ++ "\x27")) ++ "]"

/-- Python equality test between an arbitrary value and a string literal
(`cmd_type == 'ping'` and the like). -/
def isStrEq : PyVal → String → Bool
  | .vStr s, t => s == t
  | _, _ => false

/-- A loaded Python module, as produced by executing plugin code: it either
exposes a `handle` entry point (a function from an args mapping to a result
or a raised exception, the latter as `Except.error` with the exception text)
or it does not. -/
structure Module where
  handle : Option (PyVal → Except String PyVal)

/-- State of `PluginManager`: the in-memory registry `self.plugins` and the
on-disk persisted plugin sources (name ↦ code). -/
structure PM where
  plugins : List (String × Module)
  disk : List (String × String)

/-- Server-side plugin record as returned by the `getPlugins` query. -/
structure SPlugin where
  name : String
  code : String
  checksum : String

/-- Server-side agent-update record as returned by `getAgentUpdate`; every
field is read with `.get`, hence optional. -/
structure UpdateInfo where
  version : Option String
  code : Option String
  checksum : Option String
  releaseNotes : Option String

/-- A command envelope `{id, command}` as delivered by either transport. -/
structure Cmd where
  id : Int
  command : PyVal

/-- One `updateCommandStatus(id, status, result)` call observed at the
control plane. -/
structure Report where
  cmdId : Int
  status : String
  result : Option PyVal

/-- The agent's interaction environment: the content-hash function, the
semantics of `exec` on plugin code, injectable file-write failures, the JSON
parser, HTTP fetch results, control-plane query results, the local plugin
directory scan, and ambient host data.  All effects the source performs are
resolved through this record, which makes each operation a pure function. -/
structure AgentEnv where
  hash : String → String
  ex : String → Except String Module
  pluginDiskFail : String → Bool
  parse : String → Except String PyVal
  httpGet : String → Except String String
  serverUpdate : Option UpdateInfo
  serverPlugins : List SPlugin
  localScan : List (String × Module)
  agentReadFail : Bool
  backupWriteFail : Bool
  agentWriteFail : Bool
  pending : List Cmd
  nowIso : String
  now : Int
  agentId : String
  configuredId : Option String
  platform : String

/-- PluginManager.load_plugin (src/agent.py lines 219-254): verify the
SHA-256 digest of the code string against the supplied checksum, execute the
code, require a `handle` entry point, store the module under `name`, then
persist the code to disk.  A checksum mismatch, an exception from `exec`, or
a missing `handle` returns False; an exception while writing the plugin file
is caught by the enclosing `try` and returns False, but the in-memory
registry was already updated at that point (the store precedes the write in
the source). -/
def load_plugin (env : AgentEnv) (pm : PM) (name code checksum : String) :
    Bool × PM :=
  if env.hash code ≠ checksum then
    (false, pm)
  else
    match env.ex code with
    | .error _ => (false, pm)
    | .ok m =>
      match m.handle with
      | Option.none => (false, pm)
      | some _ =>
        let pm1 : PM := { pm with plugins := setEntry pm.plugins name m }
        if env.pluginDiskFail name then
          (false, pm1)
        else
          (true, { pm1 with disk := setEntry pm1.disk name code })

/-- PluginManager.list_plugins (src/agent.py lines 292-294). -/
def list_plugins (pm : PM) : List String :=
  pm.plugins.map Prod.fst

/-- PluginManager.execute_plugin (src/agent.py lines 256-290).  The lookup
`self.plugins.get(name)` at line 261 sits OUTSIDE the try that starts at
line 271: an unhashable name (a Python list or dict) makes `dict.get` raise
TypeError, which escapes execute_plugin — modelled as `.error` carrying the
exception's text (`str(e)` of the TypeError).  Any other name either is a
string key of the registry or misses it, yielding the structured not-found
failure naming the unit and the available set.  A found unit's `handle` is
called inside the try: a raised exception is converted to a structured
failure, a returned mapping gets `success = True` added when absent, and a
bare value is wrapped as `{success: True, result: value}`. -/
def execute_plugin (pm : PM) (name : PyVal) (args : PyVal) :
    Except String PyVal :=
  match name with
  | .vList _ => .error "unhashable type: \x27list\x27"
  | .vDict _ => .error "unhashable type: \x27dict\x27"
  | _ =>
    let found : Option Module :=
      match name with
      | .vStr s => pm.plugins.lookup s
      | _ => Option.none
    match found with
    | Option.none =>
      .ok (vDict [("success", vBool false),
             ("error", vStr ("Plugin \x27" ++ pyToString name ++
               "\x27 not found. Available: " ++
               reprStrList (list_plugins pm)))])
    | some m =>
      match m.handle with
      | Option.none =>
        -- AttributeError raised by `plugin.handle` is caught by the same
        -- `except` as a failure of the handler itself.
        .ok (vDict [("success", vBool false),
               ("error", vStr "module has no attribute \x27handle\x27")])
      | some h =>
        match h args with
        | .error e =>
          .ok (vDict [("success", vBool false), ("error", vStr e)])
        | .ok r =>
          match r with
          | .vDict d =>
            .ok (if (d.lookup "success").isNone then
              vDict (d ++ [("success", vBool true)])
            else
              vDict d)
          | v => .ok (vDict [("success", vBool true), ("result", v)])

/-- PluginManager.load_local_plugins (src/agent.py lines 173-217): each file
found in the plugin directory is executed; candidates missing the `handle`
entry point (or whose execution failed, folded into `localScan` the same
way) are skipped; the rest replace any same-named registry entry.  Nothing
is written to disk. -/
def load_local_plugins (env : AgentEnv) (pm : PM) : PM :=
  { pm with
    plugins := env.localScan.foldl
      (fun acc p => if p.2.handle.isSome then setEntry acc p.1 p.2 else acc)
      pm.plugins }

/-- Agent.sync_plugins (src/agent.py lines 461-478): load every plugin the
server returns, with the server-supplied checksum. -/
def agent_sync_plugins (env : AgentEnv) (pm : PM) : PM :=
  env.serverPlugins.foldl
    (fun acc p => (load_plugin env acc p.name p.code p.checksum).2) pm

/-- The agent's full state threaded through command execution: the plugin
registry, the on-disk agent code, the backup file, whether a restart has
been scheduled, the running version, and the WebSocket connectivity flag. -/
structure AgentState where
  pm : PM
  agentCode : String
  backup : Option String
  restartScheduled : Bool
  version : String
  wsConnected : Bool

/-- Where `Agent.self_update` returned: which exit point of the source was
taken.  Every `*Err` stage corresponds to an exception caught by the
enclosing `try` of the source and turned into a failure dictionary. -/
inductive Stage where
  | httpErr
  | extractErr
  | noUpdate
  | alreadyLatest
  | noCode
  | checksumMismatch
  | readErr
  | backupErr
  | writeErr
  | applied
deriving DecidableEq

/-- Outcome of `Agent.self_update`: the returned result dictionary, the
on-disk agent code and backup file afterwards, whether the restart thread
was started, and the exit stage taken. -/
structure SUOut where
  result : PyVal
  agentCode : String
  backup : Option String
  restartScheduled : Bool
  stage : Stage

/-- An outcome of self_update that leaves the file system untouched. -/
def suNoChange (st : AgentState) (r : PyVal) (stg : Stage) : SUOut :=
  ⟨r, st.agentCode, st.backup, false, stg⟩

/-- Failure dictionary produced by the outer `except` of self_update
(`{"success": False, "error": str(e)}`). -/
def exnDict (msg : String) : PyVal :=
  vDict [("success", vBool false), ("error", vStr msg)]

/-- Whitespace characters removed by Python str.strip (ASCII range). -/
def isPySpace (c : Char) : Bool :=
  c == ' ' || c == '\t' || c == '\n' || c == '\r' || c == '\x0b' || c == '\x0c'

/-- Python str.strip on a character list. -/
def stripList (l : List Char) : List Char :=
  ((l.dropWhile isPySpace).reverse.dropWhile isPySpace).reverse

/-- Python str.split with a one-character separator, on character lists
(structural recursion so that concrete inputs evaluate by rfl). -/
def splitOnChar (c : Char) : List Char → List (List Char)
  | [] => [[]]
  | x :: xs =>
    match splitOnChar c xs with
    | [] => [[]]
    | y :: ys => if x = c then [] :: y :: ys else (x :: y) :: ys

/-- Version extraction of self_update (src/agent.py lines 513-517): scan the
lines of the downloaded code for the first one whose stripped form starts
with `VERSION = ` and take the token between the first pair of double
quotes; `line.split(CHR34)[1]` raises IndexError when the matching line has
no double quote, and no matching line leaves the initial value `unknown`.
String splitting and stripping are carried out on the underlying character
lists so that the definition computes definitionally. -/
def extractVersion (code : String) : Except String String :=
  go (splitOnChar '\n' code.data)
where
  /-- Scans the remaining lines for the first VERSION assignment. -/
  go : List (List Char) → Except String String
  | [] => .ok "unknown"
  | l :: ls =>
    if List.isPrefixOf "VERSION = ".data (stripList l) then
      match (splitOnChar '"' l).get? 1 with
      | some v => .ok (String.mk v)
      | Option.none => .error "list index out of range"
    else
      go ls

/-- Lift an optional string field of the server's update record to a value
(`None` when the field is absent). -/
def optStrVal : Option String → PyVal
  | some s => vStr s
  | Option.none => vNone

/-- The tail of Agent.self_update shared by both acquisition methods
(src/agent.py lines 551-621): reject an absent or empty candidate
(`if not new_code`), verify the digest only when the checksum value is
truthy (`if checksum:`), back the current agent file up, overwrite it with
the candidate, and schedule the restart.  Failures of the file operations
are injected via the environment flags and reach the outer `except`; the
exact exception texts are abstracted. -/
def finishUpdate (env : AgentEnv) (st : AgentState) (newCode : Option String)
    (newVer : PyVal) (checksum : Option String) : SUOut :=
  let noCodeDict : PyVal :=
    vDict [("success", vBool false), ("error", vStr "No update code received")]
  match newCode with
  | Option.none => suNoChange st noCodeDict .noCode
  | some code =>
    if code = "" then
      suNoChange st noCodeDict .noCode
    else
      let digestOK : Bool :=
        match checksum with
        | Option.none => true
        | some k => (k == "") || (env.hash code == k)
      if digestOK = false then
        suNoChange st
          (vDict [("success", vBool false),
                  ("error", vStr "Checksum mismatch - update rejected")])
          .checksumMismatch
      else if env.agentReadFail then
        suNoChange st (exnDict "could not read agent file") .readErr
      else if env.backupWriteFail then
        suNoChange st (exnDict "could not write backup file") .backupErr
      else if env.agentWriteFail then
        ⟨exnDict "could not write agent file",
         st.agentCode, some st.agentCode, false, .writeErr⟩
      else
        ⟨vDict [("success", vBool true),
                ("message",
                 vStr ("Updated from " ++ st.version ++ " to " ++
                   pyToString newVer)),
                ("old_version", vStr st.version),
                ("new_version", newVer),
                ("restarting", vBool true)],
         code, some st.agentCode, true, .applied⟩

/-- Agent.self_update (src/agent.py lines 480-625).  Method 1 (a truthy
`update_url`): download the candidate, extract its version, and compute the
checksum from the downloaded content itself; there is no version
short-circuit on this path.  Method 2 (no URL): query the server; no record
means a no-op success; a candidate whose version equals the running version
is a no-op success unless `force` is truthy.  Both methods continue in
`finishUpdate`. -/
def self_update (env : AgentEnv) (st : AgentState) (updateUrl force : PyVal) :
    SUOut :=
  if truthy updateUrl then
    match updateUrl with
    | .vStr url =>
      match env.httpGet url with
      | .error e => suNoChange st (exnDict e) .httpErr
      | .ok code =>
        match extractVersion code with
        | .error e => suNoChange st (exnDict e) .extractErr
        | .ok ver =>
          finishUpdate env st (some code) (vStr ver) (some (env.hash code))
    | _ =>
      -- requests.get on a non-string URL raises; caught by the outer except.
      suNoChange st (exnDict "invalid URL") .httpErr
  else
    match env.serverUpdate with
    | Option.none =>
      suNoChange st
        (vDict [("success", vBool true),
                ("message", vStr "No update available"),
                ("current_version", vStr st.version)])
        .noUpdate
    | some info =>
      if info.version = some st.version ∧ truthy force = false then
        suNoChange st
          (vDict [("success", vBool true),
                  ("message",
                   vStr ("Already at latest version " ++ st.version)),
                  ("current_version", vStr st.version)])
          .alreadyLatest
      else
        finishUpdate env st info.code (optStrVal info.version) info.checksum

/-- Agent.update_plugin_from_url (src/agent.py lines 627-659): download the
code, compute its checksum from the downloaded content itself, and hand both
to load_plugin. -/
def update_plugin_from_url (env : AgentEnv) (pm : PM) (name url : String) :
    PyVal × PM :=
  match env.httpGet url with
  | .error e => (vDict [("success", vBool false), ("error", vStr e)], pm)
  | .ok code =>
    let checksum := env.hash code
    let r := load_plugin env pm name code checksum
    if r.1 then
      (vDict [("success", vBool true),
              ("message", vStr ("Plugin " ++ name ++ " updated successfully")),
              ("plugins", vList ((list_plugins r.2).map vStr))],
       r.2)
    else
      (vDict [("success", vBool false),
              ("error", vStr ("Failed to load plugin " ++ name))],
       r.2)

/-- Agent version constants (src/agent.py lines 32-34). -/
def RELEASE_DATE : String := "2026-02-04"

/-- Release notes constant of the running build. -/
def RELEASE_NOTES : String :=
  "Serial number as unique agent ID, auto-detection support"

/-- The command types recognized by the dispatch chain of
Agent.execute_command, in source order. -/
def knownTypes : List String :=
  ["ping", "sync_plugins", "reload_plugins", "list_plugins", "get_status",
   "self_update", "check_update", "update_plugin", "restart",
   "plugin_command"]

/-- Result of one handler branch of execute_command: the result dictionary
and the updated agent state. -/
structure HOut where
  result : PyVal
  st : AgentState

/-- The `get_status` result dictionary (src/agent.py lines 703-719). -/
def statusDict (env : AgentEnv) (st : AgentState) : PyVal :=
  let idSource : String :=
    match env.configuredId with
    | Option.none => "auto-detected (serial)"
    | some c =>
      if c = "" ∨ c.toLower = "auto" then "auto-detected (serial)"
      else "configured"
  vDict [("success", vBool true),
         ("agent_id", vStr env.agentId),
         ("id_source", vStr idSource),
         ("version", vStr st.version),
         ("release_date", vStr RELEASE_DATE),
         ("release_notes", vStr RELEASE_NOTES),
         ("uptime", vInt env.now),
         ("plugins", vList ((list_plugins st.pm).map vStr)),
         ("ws_connected", vBool st.wsConnected),
         ("platform", vStr env.platform)]

/-- The body of the `try` block of Agent.execute_command (src/agent.py lines
684-786): dispatch on `command.get('type')` through the built-in operations,
the update engine and the plugin registry, producing the result dictionary
each branch of the source assigns to `result`.  Almost every branch is
total (each callee catches its own exceptions); the one exception path is
plugin_command with an unhashable plugin name, whose TypeError escapes
execute_plugin and propagates out of the handler body as `.error` (to be
caught by the except of execute_command).  No state is mutated before that
raise, so the error outcome carries no state. -/
def runHandler (env : AgentEnv) (st : AgentState) (command : PyVal) :
    Except String HOut :=
  let ct : PyVal := (pyGet command "type").getD vNone
  if isStrEq ct "ping" then
    .ok ⟨vDict [("message", vStr "pong"), ("timestamp", vStr env.nowIso)], st⟩
  else if isStrEq ct "sync_plugins" then
    let pm1 := agent_sync_plugins env st.pm
    .ok ⟨vDict [("success", vBool true),
            ("plugins", vList ((list_plugins pm1).map vStr))],
     { st with pm := pm1 }⟩
  else if isStrEq ct "reload_plugins" then
    let pm1 := load_local_plugins env st.pm
    .ok ⟨vDict [("success", vBool true),
            ("plugins", vList ((list_plugins pm1).map vStr))],
     { st with pm := pm1 }⟩
  else if isStrEq ct "list_plugins" then
    .ok ⟨vDict [("success", vBool true),
            ("plugins", vList ((list_plugins st.pm).map vStr))],
     st⟩
  else if isStrEq ct "get_status" then
    .ok ⟨statusDict env st, st⟩
  else if isStrEq ct "self_update" then
    let url := (pyGet command "url").getD vNone
    let force := (pyGet command "force").getD (vBool false)
    let o := self_update env st url force
    .ok ⟨o.result,
     { st with agentCode := o.agentCode, backup := o.backup,
               restartScheduled := st.restartScheduled || o.restartScheduled }⟩
  else if isStrEq ct "check_update" then
    match env.serverUpdate with
    | some info =>
      .ok ⟨vDict [("success", vBool true),
              ("update_available", vBool true),
              ("current_version", vStr st.version),
              ("new_version", optStrVal info.version),
              ("release_notes", optStrVal info.releaseNotes)],
       st⟩
    | Option.none =>
      .ok ⟨vDict [("success", vBool true),
              ("update_available", vBool false),
              ("current_version", vStr st.version)],
       st⟩
  else if isStrEq ct "update_plugin" then
    let nm := (pyGet command "name").getD vNone
    let u := (pyGet command "url").getD vNone
    if truthy nm = false ∨ truthy u = false then
      .ok ⟨vDict [("success", vBool false),
              ("error", vStr "Missing \x27name\x27 or \x27url\x27 in command")],
       st⟩
    else
      match nm, u with
      | .vStr n, .vStr uu =>
        let r := update_plugin_from_url env st.pm n uu
        .ok ⟨r.1, { st with pm := r.2 }⟩
      | _, _ =>
        -- requests.get on a non-string URL (or a non-string registry key)
        -- raises inside update_plugin_from_url and is caught there.
        .ok ⟨vDict [("success", vBool false),
                ("error", vStr "invalid argument types")],
         st⟩
  else if isStrEq ct "restart" then
    .ok ⟨vDict [("success", vBool true),
            ("message", vStr "Agent restarting...")],
     { st with restartScheduled := true }⟩
  else if isStrEq ct "plugin_command" then
    let pn := (pyGet command "plugin").getD vNone
    let args := (pyGet command "args").getD (vDict [])
    if truthy pn = false then
      .ok ⟨vDict [("success", vBool false),
              ("error", vStr "Missing \x27plugin\x27 field in command")],
       st⟩
    else
      match execute_plugin st.pm pn args with
      | .error e => .error e
      | .ok r => .ok ⟨r, st⟩
  else
    .ok ⟨vDict [("error", vStr ("Unknown command type: " ++ pyToString ct))],
     st⟩

/-- Outcome of Agent.execute_command: the state afterwards, the sequence of
status reports sent to the control plane, and — when an exception escaped
the method — its description. -/
structure ECOut where
  st : AgentState
  reports : List Report
  uncaught : Option String

/-- The part of Agent.execute_command after the JSON-string normalization
(src/agent.py lines 677-798): read `command.get('type')` — which raises
AttributeError when the payload is not a mapping, before the `processing`
report and outside the `try` — report `processing`, run the handler, and
report `done` or `failed` according to `result.get('success', True)`
truthiness.  An exception escaping the handler body (the unhashable plugin
name) is caught by the except at line 794 and reported as a terminal
`failed` with the exception's text. -/
def execute_command_body (env : AgentEnv) (st : AgentState) (cmdId : Int)
    (command : PyVal) : ECOut :=
  match command with
  | .vDict d =>
    match runHandler env st (vDict d) with
    | .error e =>
      ⟨st,
       [⟨cmdId, "processing", Option.none⟩,
        ⟨cmdId, "failed", some (vDict [("error", vStr e)])⟩],
       Option.none⟩
    | .ok h =>
      let succVal := (pyGet h.result "success").getD (vBool true)
      let status := if truthy succVal then "done" else "failed"
      ⟨h.st,
       [⟨cmdId, "processing", Option.none⟩, ⟨cmdId, status, some h.result⟩],
       Option.none⟩
  | v =>
    ⟨st, [],
     some ("AttributeError: " ++ pyToString v ++ " has no attribute get")⟩

/-- Agent.execute_command (src/agent.py lines 661-798): a string payload is
JSON-parsed first; a parse failure is reported as a terminal `failed` with
an invalid-payload error and nothing else happens.  Otherwise the envelope
proceeds to `execute_command_body`. -/
def execute_command (env : AgentEnv) (st : AgentState) (cmd : Cmd) : ECOut :=
  match cmd.command with
  | .vStr s =>
    match env.parse s with
    | .error e =>
      ⟨st,
       [⟨cmd.id, "failed",
         some (vDict [("error", vStr ("Invalid command JSON: " ++ e))])⟩],
       Option.none⟩
    | .ok v => execute_command_body env st cmd.id v
  | v => execute_command_body env st cmd.id v

/-- Agent.poll_commands (src/agent.py lines 800-805): fetch the pending
commands and execute them in order.  There is no per-command `try`, so an
exception escaping execute_command aborts the remaining commands and
propagates out of poll_commands. -/
def poll_commands (env : AgentEnv) (st : AgentState) :
    AgentState × List Report × Option String :=
  go st env.pending []
where
  /-- Runs the fetched commands in order, stopping at an escaped exception. -/
  go : AgentState → List Cmd → List Report →
      AgentState × List Report × Option String
  | s, [], acc => (s, acc, Option.none)
  | s, c :: cs, acc =>
    let o := execute_command env s c
    match o.uncaught with
    | some e => (o.st, acc ++ o.reports, some e)
    | Option.none => go o.st cs (acc ++ o.reports)

/-- One iteration of Agent.polling_loop (src/agent.py lines 823-834): poll
only when the connectivity flag is down; an exception escaping poll_commands
is caught and logged there.  The Bool records whether poll_commands was
invoked this iteration. -/
def polling_iteration (env : AgentEnv) (st : AgentState) :
    AgentState × List Report × Bool :=
  if st.wsConnected then
    (st, [], false)
  else
    let r := poll_commands env st
    (r.1, r.2.1, true)

/-!  Derived predicates used in the statements below. -/

/-- A value is a success/failure-tagged structured result: a dictionary
carrying a `success` key. -/
def isTagged : PyVal → Bool
  | .vDict d => (d.lookup "success").isSome
  | _ => false

/-- Whether a value is a Python mapping. -/
def isDict : PyVal → Bool
  | .vDict _ => true
  | _ => false

/-- Whether a value is hashable in Python, i.e. usable as a dictionary key:
lists and dicts are not. -/
def pyHashable : PyVal → Bool
  | .vList _ => false
  | .vDict _ => false
  | _ => true

/-- A status report is terminal when it carries `done` or `failed`. -/
def isTerminalReport (r : Report) : Bool :=
  r.status == "done" || r.status == "failed"

/-- Scans a report sequence; `seen` records whether a `processing` report
has already occurred. -/
def monotonicGo : Bool → List Report → Bool
  | _, [] => true
  | seen, r :: rs =>
    if isTerminalReport r && !seen then false
    else monotonicGo (seen || r.status == "processing") rs

/-- A report sequence is monotonic when every terminal report is preceded by
an earlier `processing` report. -/
def monotonicOK (rs : List Report) : Bool :=
  monotonicGo false rs

/-- Whether a command payload is a mapping, or a string that parses to a
mapping. -/
def resolvesToDict (env : AgentEnv) : PyVal → Bool
  | .vStr s =>
    match env.parse s with
    | .ok (.vDict _) => true
    | _ => false
  | .vDict _ => true
  | _ => false

/-- Modelled from the spec sentence behind C3: the digest that accompanies a
self-update candidate.  A candidate fetched from a direct URL carries no
independent digest (the source computes one from the downloaded bytes
themselves); a server candidate carries the `checksum` field of the update
record. -/
def suppliedUpdateDigest (env : AgentEnv) (url : PyVal) : Option String :=
  if truthy url then Option.none else env.serverUpdate.bind UpdateInfo.checksum

/-- Modelled from the spec sentence behind C3, stated over the embedded
self_update: whenever the candidate is activated (the restart is scheduled),
some non-empty digest was supplied with it and the activated code hashes to
that digest. -/
def activationDigestChecked (env : AgentEnv) (st : AgentState)
    (url force : PyVal) : Prop :=
  (self_update env st url force).restartScheduled = true →
    ∃ k, suppliedUpdateDigest env url = some k ∧ k ≠ "" ∧
      env.hash ((self_update env st url force).agentCode) = k

/-!  Concrete environments and states used by witnesses and
counterexamples. -/

/-- A benign baseline environment: the hash function is left abstract as the
identity (the control flow only compares digest strings), executing code
yields a module with a trivial entry point, every effect succeeds, and the
control plane returns nothing. -/
def defaultEnv : AgentEnv := {
  hash := fun s => s
  ex := fun _ => .ok ⟨some (fun _ => .ok vNone)⟩
  pluginDiskFail := fun _ => false
  parse := fun _ => .error "Expecting value"
  httpGet := fun _ => .error "connection error"
  serverUpdate := Option.none
  serverPlugins := []
  localScan := []
  agentReadFail := false
  backupWriteFail := false
  agentWriteFail := false
  pending := []
  nowIso := "T0"
  now := 0
  agentId := "mac-serial"
  configuredId := Option.none
  platform := "darwin"
}

/-- A baseline agent state with an empty registry. -/
def st0 : AgentState := {
  pm := ⟨[], []⟩
  agentCode := "OLD AGENT CODE"
  backup := Option.none
  restartScheduled := false
  version := "2.1.0"
  wsConnected := false
}

/-- Environment whose JSON parser returns a non-mapping (a valid JSON
array), as `json.loads` does on `[1]`. -/
def envArr : AgentEnv := { defaultEnv with parse := fun _ => .ok (vList [vInt 1]) }

/-- A candidate agent build whose declared version equals the running
version 2.1.0. -/
def codeSameVer : String := "VERSION = \"2.1.0\"\nrest of agent"

/-- Environment whose HTTP fetch returns the same-version candidate. -/
def envUrlSame : AgentEnv := { defaultEnv with httpGet := fun _ => .ok codeSameVer }

/-- Environment whose server offers an update record with no checksum
field. -/
def envNoCk : AgentEnv := { defaultEnv with
  serverUpdate := some ⟨some "9.9.9", some "NEW CODE", Option.none, Option.none⟩ }

/-- Environment whose server offers an update record whose checksum matches
the candidate (under the identity hash). -/
def envCkOk : AgentEnv := { defaultEnv with
  serverUpdate := some ⟨some "9.9.9", some "NEW CODE", some "NEW CODE", Option.none⟩ }

/-- Environment whose server offers an update record whose checksum does not
match the candidate. -/
def envCkBad : AgentEnv := { defaultEnv with
  serverUpdate := some ⟨some "9.9.9", some "NEW CODE", some "OTHER DIGEST", Option.none⟩ }

/-- Environment where executing plugin code yields a module without the
`handle` entry point. -/
def envNoHandle : AgentEnv := { defaultEnv with ex := fun _ => .ok ⟨Option.none⟩ }

/-- Environment where writing the backup file raises, with a server
candidate available. -/
def envBackupFail : AgentEnv := { envCkOk with backupWriteFail := true }

/-!  Helper lemmas. -/

/-- Lookup in an appended association list tries the left list first. -/
theorem lookup_append {α : Type} (l1 l2 : List (String × α)) (k : String) :
    (l1 ++ l2).lookup k = ((l1.lookup k).orElse fun _ => l2.lookup k) := by
  induction l1 with
  | nil => simp [List.lookup]
  | cons p rest ih =>
    by_cases h : k == p.1
    · simp [List.lookup, h, Option.orElse]
    · simp only [List.cons_append, List.lookup, h]
      exact ih

/-- Every exit of finishUpdate other than a full apply leaves the agent file
untouched, and a full apply records the prior code in the backup file. -/
theorem finishUpdate_changed_backup (env : AgentEnv) (st : AgentState)
    (nc : Option String) (nv : PyVal) (ck : Option String)
    (h : (finishUpdate env st nc nv ck).agentCode ≠ st.agentCode) :
    (finishUpdate env st nc nv ck).backup = some st.agentCode := by
  revert h
  cases nc with
  | none => exact fun h => absurd rfl h
  | some code =>
    unfold finishUpdate
    dsimp only
    split
    · exact fun h => absurd rfl h
    · split
      · exact fun h => absurd rfl h
      · split
        · exact fun h => absurd rfl h
        · split
          · exact fun h => absurd rfl h
          · split
            · exact fun _ => rfl
            · exact fun _ => rfl

/-- When the backup write fails, finishUpdate never touches the agent file,
never schedules the restart, and never reaches the backup-written states. -/
theorem finishUpdate_backupFail (env : AgentEnv) (st : AgentState)
    (nc : Option String) (nv : PyVal) (ck : Option String)
    (h : env.backupWriteFail = true) :
    (finishUpdate env st nc nv ck).agentCode = st.agentCode ∧
    (finishUpdate env st nc nv ck).backup = st.backup ∧
    (finishUpdate env st nc nv ck).restartScheduled = false := by
  cases nc with
  | none => exact ⟨rfl, rfl, rfl⟩
  | some code =>
    unfold finishUpdate
    dsimp only
    split
    · exact ⟨rfl, rfl, rfl⟩
    · split
      · exact ⟨rfl, rfl, rfl⟩
      · split
        · exact ⟨rfl, rfl, rfl⟩
        · simp [h, suNoChange]

/-- With a supplied non-empty digest, finishUpdate schedules the restart
only for code hashing to that digest, and the applied code is what was
activated. -/
theorem finishUpdate_applied_hash (env : AgentEnv) (st : AgentState)
    (nc : Option String) (nv : PyVal) (k : String)
    (hk : k ≠ "")
    (h : (finishUpdate env st nc nv (some k)).restartScheduled = true) :
    env.hash ((finishUpdate env st nc nv (some k)).agentCode) = k := by
  revert h
  cases nc with
  | none => intro h; simp [finishUpdate, suNoChange] at h
  | some code =>
    unfold finishUpdate
    dsimp only
    split
    · intro h; simp [suNoChange] at h
    · split
      · intro h; simp [suNoChange] at h
      · rename_i hd
        split
        · intro h; simp [suNoChange] at h
        · split
          · intro h; simp [suNoChange] at h
          · split
            · intro h; simp at h
            · intro _
              have hd1 : (k == "" || env.hash code == k) = true := by
                revert hd
                cases hb : (k == "" || env.hash code == k) <;> simp
              simp only [Bool.or_eq_true, beq_iff_eq] at hd1
              rcases hd1 with h1 | h1
              · exact absurd h1 hk
              · exact h1

/-- A non-empty candidate whose hash differs from a supplied non-empty
digest makes finishUpdate reject with the mismatch failure and no change. -/
theorem finishUpdate_mismatch (env : AgentEnv) (st : AgentState)
    (c : String) (nv : PyVal) (k : String)
    (hc : c ≠ "") (hk : k ≠ "") (hh : env.hash c ≠ k) :
    finishUpdate env st (some c) nv (some k) =
      suNoChange st
        (vDict [("success", vBool false),
                ("error", vStr "Checksum mismatch - update rejected")])
        .checksumMismatch := by
  unfold finishUpdate
  dsimp only
  rw [if_neg hc]
  have hd : (k == "" || env.hash c == k) = false := by
    simp [hk, hh]
  rw [hd]
  simp

/-- The backup-failure exit of finishUpdate carries a failure dictionary and
leaves everything unchanged. -/
theorem finishUpdate_backupErr (env : AgentEnv) (st : AgentState)
    (nc : Option String) (nv : PyVal) (ck : Option String)
    (h : (finishUpdate env st nc nv ck).stage = Stage.backupErr) :
    pyGet (finishUpdate env st nc nv ck).result "success" = some (vBool false) ∧
    (finishUpdate env st nc nv ck).agentCode = st.agentCode ∧
    (finishUpdate env st nc nv ck).backup = st.backup ∧
    (finishUpdate env st nc nv ck).restartScheduled = false := by
  revert h
  cases nc with
  | none => intro h; exact Stage.noConfusion h
  | some code =>
    unfold finishUpdate
    dsimp only
    split
    · intro h; exact Stage.noConfusion h
    · split
      · intro h; exact Stage.noConfusion h
      · split
        · intro h; exact Stage.noConfusion h
        · split
          · intro _; exact ⟨rfl, rfl, rfl, rfl⟩
          · split
            · intro h; exact Stage.noConfusion h
            · intro h; exact Stage.noConfusion h

/-- With no URL, a server candidate and no version short-circuit,
self_update is finishUpdate on the server record's fields. -/
theorem self_update_server (env : AgentEnv) (st : AgentState)
    (url force : PyVal) (info : UpdateInfo)
    (hu : truthy url = false) (hs : env.serverUpdate = some info)
    (hshort : ¬(info.version = some st.version ∧ truthy force = false)) :
    self_update env st url force =
      finishUpdate env st info.code (optStrVal info.version) info.checksum := by
  unfold self_update
  rw [hu, hs]
  simp only [Bool.false_eq_true, if_false]
  rw [if_neg hshort]

/-- With no URL, a server candidate of the running version and no force
flag, self_update short-circuits to the no-op success. -/
theorem self_update_server_short (env : AgentEnv) (st : AgentState)
    (url force : PyVal) (info : UpdateInfo)
    (hu : truthy url = false) (hs : env.serverUpdate = some info)
    (hv : info.version = some st.version) (hf : truthy force = false) :
    self_update env st url force =
      suNoChange st
        (vDict [("success", vBool true),
                ("message", vStr ("Already at latest version " ++ st.version)),
                ("current_version", vStr st.version)])
        .alreadyLatest := by
  unfold self_update
  rw [hu, hs]
  simp only [Bool.false_eq_true, if_false]
  rw [if_pos ⟨hv, hf⟩]

/-- Every run of self_update either exits through a state-preserving branch
whose stage is not the backup failure, or is a finishUpdate run. -/
theorem self_update_shape (env : AgentEnv) (st : AgentState)
    (url force : PyVal) :
    ((self_update env st url force).agentCode = st.agentCode ∧
     (self_update env st url force).backup = st.backup ∧
     (self_update env st url force).restartScheduled = false ∧
     (self_update env st url force).stage ≠ Stage.backupErr) ∨
    (∃ nc nv ck, self_update env st url force = finishUpdate env st nc nv ck) := by
  unfold self_update
  split
  · split
    · split
      · exact Or.inl ⟨rfl, rfl, rfl, fun h => Stage.noConfusion h⟩
      · split
        · exact Or.inl ⟨rfl, rfl, rfl, fun h => Stage.noConfusion h⟩
        · exact Or.inr ⟨_, _, _, rfl⟩
    · exact Or.inl ⟨rfl, rfl, rfl, fun h => Stage.noConfusion h⟩
  · split
    · exact Or.inl ⟨rfl, rfl, rfl, fun h => Stage.noConfusion h⟩
    · split
      · exact Or.inl ⟨rfl, rfl, rfl, fun h => Stage.noConfusion h⟩
      · exact Or.inr ⟨_, _, _, rfl⟩

/-- With a supplied non-empty server digest, a scheduled restart implies the
activated code hashes to that digest. -/
theorem self_update_applied_hash (env : AgentEnv) (st : AgentState)
    (url force : PyVal) (info : UpdateInfo) (k : String)
    (hu : truthy url = false) (hs : env.serverUpdate = some info)
    (hck : info.checksum = some k) (hk : k ≠ "")
    (h : (self_update env st url force).restartScheduled = true) :
    env.hash ((self_update env st url force).agentCode) = k := by
  by_cases hshort : info.version = some st.version ∧ truthy force = false
  · rw [self_update_server_short env st url force info hu hs hshort.1 hshort.2]
      at h
    exact Bool.noConfusion h
  · have heq := self_update_server env st url force info hu hs hshort
    rw [heq] at h ⊢
    rw [hck] at h ⊢
    exact finishUpdate_applied_hash env st info.code (optStrVal info.version)
      k hk h

/-- A server candidate with a non-empty digest that does not match its code
makes self_update fail with the mismatch error and no change. -/
theorem self_update_mismatch (env : AgentEnv) (st : AgentState)
    (url force : PyVal) (info : UpdateInfo) (c k : String)
    (hu : truthy url = false) (hs : env.serverUpdate = some info)
    (hshort : ¬(info.version = some st.version ∧ truthy force = false))
    (hc : info.code = some c) (hc0 : c ≠ "")
    (hck : info.checksum = some k) (hk : k ≠ "") (hh : env.hash c ≠ k) :
    self_update env st url force =
      suNoChange st
        (vDict [("success", vBool false),
                ("error", vStr "Checksum mismatch - update rejected")])
        .checksumMismatch := by
  rw [self_update_server env st url force info hu hs hshort, hc, hck]
  exact finishUpdate_mismatch env st c (optStrVal info.version) k hc0 hk hh

/-- A successful load_plugin used a matching digest. -/
theorem load_plugin_hash_sound (env : AgentEnv) (pm : PM)
    (n c k : String) (h : (load_plugin env pm n c k).1 = true) :
    env.hash c = k := by
  by_cases hc : env.hash c = k
  · exact hc
  · unfold load_plugin at h
    rw [if_pos hc] at h
    exact Bool.noConfusion h

/-- A digest mismatch makes load_plugin fail with the registry and the disk
untouched. -/
theorem load_plugin_mismatch (env : AgentEnv) (pm : PM)
    (n c k : String) (h : env.hash c ≠ k) :
    load_plugin env pm n c k = (false, pm) := by
  unfold load_plugin
  rw [if_pos h]

/-!  Claims. -/

/-- C1, counterexample: activation succeeding is NOT equivalent to the
content hash matching the supplied digest.  Here the digest matches the code
(identity hash, code and digest both the string c), yet load_plugin fails,
because the executed module lacks the `handle` entry point. -/
theorem C1_counterexample :
    ¬(((load_plugin envNoHandle ⟨[], []⟩ "plug" "c" "c").1 = true) ↔
        envNoHandle.hash "c" = "c") := by
  intro hiff
  exact Bool.noConfusion (hiff.mpr rfl)

/-- C1 as amended: activation succeeds ONLY IF the content hash of the
candidate equals the supplied digest, and whenever the hashes differ the
prior unit handle, the plugin registry and the on-disk agent code are
unchanged: (a) a successful load_plugin implies hash equality; (b) a
load_plugin digest mismatch returns failure with the registry untouched;
(c) a server self-update candidate with a non-empty mismatching digest
yields a failure result with the agent file, backup and restart untouched;
(d) whenever a server self-update with a non-empty supplied digest
activates (schedules the restart), the activated code hashes to that
digest. -/
theorem C1_amended_hash_guard :
    (∀ (env : AgentEnv) (pm : PM) (n c k : String),
        (load_plugin env pm n c k).1 = true → env.hash c = k) ∧
    (∀ (env : AgentEnv) (pm : PM) (n c k : String),
        env.hash c ≠ k → load_plugin env pm n c k = (false, pm)) ∧
    (∀ (env : AgentEnv) (st : AgentState) (url force : PyVal)
        (info : UpdateInfo) (c k : String),
        truthy url = false → env.serverUpdate = some info →
        ¬(info.version = some st.version ∧ truthy force = false) →
        info.code = some c → c ≠ "" →
        info.checksum = some k → k ≠ "" → env.hash c ≠ k →
        pyGet (self_update env st url force).result "success" =
            some (vBool false) ∧
          (self_update env st url force).agentCode = st.agentCode ∧
          (self_update env st url force).backup = st.backup ∧
          (self_update env st url force).restartScheduled = false) ∧
    (∀ (env : AgentEnv) (st : AgentState) (url force : PyVal)
        (info : UpdateInfo) (k : String),
        truthy url = false → env.serverUpdate = some info →
        info.checksum = some k → k ≠ "" →
        (self_update env st url force).restartScheduled = true →
        env.hash ((self_update env st url force).agentCode) = k) := by
  refine ⟨load_plugin_hash_sound, load_plugin_mismatch, ?_, ?_⟩
  · intro env st url force info c k hu hs hshort hc hc0 hck hk hh
    rw [self_update_mismatch env st url force info c k hu hs hshort hc hc0
      hck hk hh]
    exact ⟨rfl, rfl, rfl, rfl⟩
  · exact fun env st url force info k hu hs hck hk h =>
      self_update_applied_hash env st url force info k hu hs hck hk h

/-- C1 witness: the amended claim evaluated at concrete inputs — a
mismatching plugin load (digest k, identity hash of code c), a server
candidate with a wrong digest, and a server candidate with a matching
digest that activates. -/
theorem C1_amended_hash_guard_witness :
    (load_plugin defaultEnv ⟨[], []⟩ "p" "c" "k" = (false, ⟨[], []⟩)) ∧
    (pyGet (self_update envCkBad st0 vNone (vBool false)).result "success" =
        some (vBool false) ∧
      (self_update envCkBad st0 vNone (vBool false)).agentCode =
        st0.agentCode) ∧
    envCkOk.hash ((self_update envCkOk st0 vNone (vBool false)).agentCode) =
      "NEW CODE" := by
  refine ⟨?_, ?_, ?_⟩
  · exact C1_amended_hash_guard.2.1 defaultEnv ⟨[], []⟩ "p" "c" "k"
      (by decide)
  · have h := C1_amended_hash_guard.2.2.1 envCkBad st0 vNone (vBool false)
      ⟨some "9.9.9", some "NEW CODE", some "OTHER DIGEST", Option.none⟩
      "NEW CODE" "OTHER DIGEST" rfl rfl (by simp [st0]) rfl (by decide) rfl
      (by decide) (by decide)
    exact ⟨h.1, h.2.1⟩
  · exact C1_amended_hash_guard.2.2.2 envCkOk st0 vNone (vBool false)
      ⟨some "9.9.9", some "NEW CODE", some "NEW CODE", Option.none⟩
      "NEW CODE" rfl rfl rfl (by decide) rfl

/-- C2: self_update writes the backup before overwriting the agent file, and
a backup-write failure aborts with a failure result and the on-disk agent
code unchanged: (a) whenever the on-disk agent code changed, the backup file
holds the previous code; (b) under an injected backup-write failure the
agent file is never touched and no restart is scheduled; (c) the
backup-failure exit carries success=False and leaves agent file and backup
unchanged. -/
theorem C2_backup_before_overwrite :
    (∀ (env : AgentEnv) (st : AgentState) (url force : PyVal),
        (self_update env st url force).agentCode ≠ st.agentCode →
        (self_update env st url force).backup = some st.agentCode) ∧
    (∀ (env : AgentEnv) (st : AgentState) (url force : PyVal),
        env.backupWriteFail = true →
        (self_update env st url force).agentCode = st.agentCode ∧
        (self_update env st url force).restartScheduled = false) ∧
    (∀ (env : AgentEnv) (st : AgentState) (url force : PyVal),
        (self_update env st url force).stage = Stage.backupErr →
        pyGet (self_update env st url force).result "success" =
            some (vBool false) ∧
          (self_update env st url force).agentCode = st.agentCode ∧
          (self_update env st url force).backup = st.backup ∧
          (self_update env st url force).restartScheduled = false) := by
  refine ⟨?_, ?_, ?_⟩
  · intro env st url force h
    rcases self_update_shape env st url force with ⟨he, _, _, _⟩ | ⟨nc, nv, ck, heq⟩
    · exact absurd he h
    · rw [heq] at h ⊢
      exact finishUpdate_changed_backup env st nc nv ck h
  · intro env st url force h
    rcases self_update_shape env st url force with ⟨he, _, hr, _⟩ | ⟨nc, nv, ck, heq⟩
    · exact ⟨he, hr⟩
    · rw [heq]
      rcases finishUpdate_backupFail env st nc nv ck h with ⟨h1, _, h3⟩
      exact ⟨h1, h3⟩
  · intro env st url force h
    rcases self_update_shape env st url force with ⟨_, _, _, hstg⟩ | ⟨nc, nv, ck, heq⟩
    · exact absurd h hstg
    · rw [heq] at h ⊢
      exact finishUpdate_backupErr env st nc nv ck h

/-- C2 witness: a server candidate applied cleanly records the prior agent
code in the backup, and the same candidate under an injected backup-write
failure aborts with success=False and the agent file untouched. -/
theorem C2_backup_before_overwrite_witness :
    (self_update envCkOk st0 vNone (vBool false)).backup =
      some st0.agentCode ∧
    (self_update envBackupFail st0 vNone (vBool false)).stage =
      Stage.backupErr ∧
    pyGet (self_update envBackupFail st0 vNone (vBool false)).result
        "success" = some (vBool false) ∧
    (self_update envBackupFail st0 vNone (vBool false)).agentCode =
      st0.agentCode := by
  refine ⟨?_, rfl, ?_⟩
  · exact C2_backup_before_overwrite.1 envCkOk st0 vNone (vBool false)
      (by decide)
  · have h := C2_backup_before_overwrite.2.2 envBackupFail st0 vNone
      (vBool false) rfl
    exact ⟨h.1, h.2.1⟩

/-- C3, counterexample: the server offers a candidate with no checksum field
(envNoCk); self_update activates it (schedules the restart) although no
supplied digest was verified, refuting the claim that every activation is
preceded by a digest verification. -/
theorem C3_counterexample :
    ¬ activationDigestChecked envNoCk st0 vNone (vBool false) := by
  intro h
  rcases h rfl with ⟨k, hk, _, _⟩
  simp [suppliedUpdateDigest, envNoCk, defaultEnv, truthy] at hk

/-- C3 as amended: digest verification guards activation exactly where a
digest is supplied: (a) load_plugin (hence plugin sync and, with its
self-computed digest, update_plugin_from_url) activates only code hashing to
the supplied checksum; (b) a self-update that activates a server candidate
carrying a non-empty digest activated code hashing to that digest.  The
direct-URL paths compute the digest from the downloaded content itself, and
a server candidate without a digest is activated unverified. -/
theorem C3_amended_digest_guard :
    (∀ (env : AgentEnv) (pm : PM) (n c k : String),
        (load_plugin env pm n c k).1 = true → env.hash c = k) ∧
    (∀ (env : AgentEnv) (st : AgentState) (url force : PyVal) (k : String),
        truthy url = false →
        suppliedUpdateDigest env url = some k → k ≠ "" →
        (self_update env st url force).restartScheduled = true →
        env.hash ((self_update env st url force).agentCode) = k) := by
  refine ⟨load_plugin_hash_sound, ?_⟩
  intro env st url force k hu hd hk h
  unfold suppliedUpdateDigest at hd
  rw [hu] at hd
  simp only [Bool.false_eq_true, if_false] at hd
  cases hs : env.serverUpdate with
  | none => rw [hs] at hd; exact Option.noConfusion hd
  | some info =>
    rw [hs] at hd
    simp only [Option.some_bind] at hd
    exact self_update_applied_hash env st url force info k hu hs hd hk h

/-- C3 witness: the amended claim at concrete inputs — a successful concrete
load_plugin run implies digest equality, and the envCkOk server candidate
with digest NEW CODE activates code hashing to it. -/
theorem C3_amended_digest_guard_witness :
    defaultEnv.hash "c" = "c" ∧
    envCkOk.hash ((self_update envCkOk st0 vNone (vBool false)).agentCode) =
      "NEW CODE" := by
  constructor
  · exact C3_amended_digest_guard.1 defaultEnv ⟨[], []⟩ "p" "c" "c" rfl
  · exact C3_amended_digest_guard.2 envCkOk st0 vNone (vBool false)
      "NEW CODE" rfl rfl (by decide) rfl

/-- C4: evaluation at the failing input.  The envelope id 1 with payload
string `[1]` parses to a JSON array (a non-mapping); `command.get` then
raises before the processing report and outside the try/except of
execute_command, so the exception escapes the dispatch boundary, no status
report at all is sent (in particular no terminal `failed`), and the state is
untouched.  This contradicts the claim that every failure becomes a terminal
`failed` report and nothing propagates past dispatch. -/
theorem C4_failing_input_eval :
    (execute_command envArr st0 ⟨1, vStr "[1]"⟩).reports = [] ∧
    (execute_command envArr st0 ⟨1, vStr "[1]"⟩).uncaught.isSome = true ∧
    (execute_command envArr st0 ⟨1, vStr "[1]"⟩).st = st0 :=
  ⟨rfl, rfl, rfl⟩

/-- C5, counterexample: execute_plugin does NOT return a structured value
for every unit name.  For the unhashable name [1] — reachable through a
plugin_command envelope whose plugin field is the non-empty (hence truthy)
list [1] — the registry lookup `self.plugins.get(name)` raises TypeError
outside the try, so the call raises past the registry boundary instead of
returning a success-tagged result. -/
theorem C5_counterexample :
    execute_plugin ⟨[], []⟩ (vList [vInt 1]) (vDict []) =
      .error "unhashable type: \x27list\x27" := rfl

/-- C5 as amended: for every HASHABLE unit name — in particular every string
name, execute_plugin's declared contract and the only kind of name a unit
can be registered under — execute_plugin returns a structured
success-tagged value and never raises: (a) every hashable name yields a
dictionary carrying a `success` key; (b) an unknown string name yields the
structured not-found failure naming the requested unit and the currently
active names; (c) an exception raised by the unit's entry point is caught
and converted to a structured failure carrying its message; (d) only an
unhashable name (a list or dict) raises, at the registry lookup itself. -/
theorem C5_amended_structured :
    (∀ (pm : PM) (name args : PyVal), pyHashable name = true →
        ∃ r, execute_plugin pm name args = .ok r ∧ isTagged r = true) ∧
    (∀ (pm : PM) (s : String) (args : PyVal),
        pm.plugins.lookup s = Option.none →
        execute_plugin pm (vStr s) args =
          .ok (vDict [("success", vBool false),
                 ("error", vStr ("Plugin \x27" ++ s ++
                   "\x27 not found. Available: " ++
                   reprStrList (list_plugins pm)))])) ∧
    (∀ (pm : PM) (s : String) (m : Module)
        (h : PyVal → Except String PyVal) (args : PyVal) (e : String),
        pm.plugins.lookup s = some m → m.handle = some h →
        h args = .error e →
        execute_plugin pm (vStr s) args =
          .ok (vDict [("success", vBool false), ("error", vStr e)])) ∧
    (∀ (pm : PM) (name args : PyVal), pyHashable name = false →
        ∃ e, execute_plugin pm name args = .error e) := by
  refine ⟨?_, ?_, ?_, ?_⟩
  · intro pm name args hh
    unfold execute_plugin
    cases name with
    | vStr s =>
      dsimp only
      cases hl : pm.plugins.lookup s with
      | none => exact ⟨_, rfl, rfl⟩
      | some m =>
        dsimp only
        cases hm : m.handle with
        | none => exact ⟨_, rfl, rfl⟩
        | some h =>
          dsimp only
          cases hr : h args with
          | error e => exact ⟨_, rfl, rfl⟩
          | ok r =>
            dsimp only
            cases r with
            | vNone => exact ⟨_, rfl, rfl⟩
            | vBool b => exact ⟨_, rfl, rfl⟩
            | vInt n => exact ⟨_, rfl, rfl⟩
            | vStr t => exact ⟨_, rfl, rfl⟩
            | vList xs => exact ⟨_, rfl, rfl⟩
            | vDict d =>
              cases hq : d.lookup "success" with
              | none =>
                refine ⟨vDict (d ++ [("success", vBool true)]), ?_, ?_⟩
                · simp [hq]
                · simp [isTagged, lookup_append, hq, List.lookup]
              | some v =>
                exact ⟨vDict d, by simp [hq], by simp [isTagged, hq]⟩
    | vNone => exact ⟨_, rfl, rfl⟩
    | vBool b => exact ⟨_, rfl, rfl⟩
    | vInt n => exact ⟨_, rfl, rfl⟩
    | vList xs => exact Bool.noConfusion hh
    | vDict d => exact Bool.noConfusion hh
  · intro pm s args hl
    unfold execute_plugin
    dsimp only
    rw [hl]
    rfl
  · intro pm s m h args e hl hm hr
    unfold execute_plugin
    dsimp only
    rw [hl]
    dsimp only
    rw [hm]
    dsimp only
    rw [hr]
  · intro pm name args hh
    cases name with
    | vList xs => exact ⟨_, rfl⟩
    | vDict d => exact ⟨_, rfl⟩
    | vNone => exact Bool.noConfusion hh
    | vBool b => exact Bool.noConfusion hh
    | vInt n => exact Bool.noConfusion hh
    | vStr s => exact Bool.noConfusion hh

/-- C5 witness: the amended theorem at a one-unit registry — an unknown
string name returns the structured not-found failure listing the single
active unit, and a raising entry point is converted to a structured
failure. -/
theorem C5_amended_structured_witness :
    execute_plugin ⟨[("sys", ⟨some fun _ => .error "boom"⟩)], []⟩
        (vStr "shell") (vDict []) =
      .ok (vDict [("success", vBool false),
             ("error",
              vStr "Plugin \x27shell\x27 not found. Available: [\x27sys\x27]")]) ∧
    execute_plugin ⟨[("sys", ⟨some fun _ => .error "boom"⟩)], []⟩
        (vStr "sys") (vDict []) =
      .ok (vDict [("success", vBool false), ("error", vStr "boom")]) ∧
    pyHashable (vStr "shell") = true := by
  refine ⟨?_, ?_, rfl⟩
  · exact C5_amended_structured.2.1
      ⟨[("sys", ⟨some fun _ => .error "boom"⟩)], []⟩ "shell" (vDict []) rfl
  · exact C5_amended_structured.2.2.1
      ⟨[("sys", ⟨some fun _ => .error "boom"⟩)], []⟩ "sys"
      ⟨some fun _ => .error "boom"⟩ (fun _ => .error "boom") (vDict [])
      "boom" rfl rfl rfl

/-- C6, counterexample: for the envelope id 7 whose string payload fails
JSON parsing, execute_command reports the terminal `failed` directly — the
report sequence is exactly [failed], with no preceding `processing` report,
refuting the claim that `processing` precedes every terminal status. -/
theorem C6_counterexample :
    (execute_command defaultEnv st0 ⟨7, vStr "not json"⟩).reports.map
        Report.status = ["failed"] ∧
    monotonicOK (execute_command defaultEnv st0 ⟨7, vStr "not json"⟩).reports
      = false :=
  ⟨rfl, rfl⟩

/-- C6 as amended: for every envelope whose payload is a mapping or a string
parsing to one, status reports are monotonic — `processing` is emitted
before any terminal report; only a payload that fails JSON parsing is
reported `failed` directly with no `processing` report. -/
theorem C6_amended_monotonic :
    ∀ (env : AgentEnv) (st : AgentState) (cmd : Cmd),
      resolvesToDict env cmd.command = true →
      monotonicOK (execute_command env st cmd).reports = true := by
  intro env st cmd h
  unfold execute_command
  cases hcmd : cmd.command with
  | vStr s =>
    dsimp only
    rw [hcmd] at h
    simp only [resolvesToDict] at h
    cases hp : env.parse s with
    | error e =>
      rw [hp] at h
      exact Bool.noConfusion h
    | ok v =>
      rw [hp] at h
      cases v with
      | vDict d =>
        cases hr : runHandler env st (vDict d) with
        | error e =>
          simp [execute_command_body, hr, monotonicOK, monotonicGo,
            isTerminalReport]
        | ok hh =>
          simp [execute_command_body, hr, monotonicOK, monotonicGo,
            isTerminalReport]
      | vNone => exact Bool.noConfusion h
      | vBool b => exact Bool.noConfusion h
      | vInt n => exact Bool.noConfusion h
      | vStr t => exact Bool.noConfusion h
      | vList xs => exact Bool.noConfusion h
  | vDict d =>
    cases hr : runHandler env st (vDict d) with
    | error e =>
      simp [execute_command_body, hr, monotonicOK, monotonicGo,
        isTerminalReport]
    | ok hh =>
      simp [execute_command_body, hr, monotonicOK, monotonicGo,
        isTerminalReport]
  | vNone => rw [hcmd] at h; exact Bool.noConfusion h
  | vBool b => rw [hcmd] at h; exact Bool.noConfusion h
  | vInt n => rw [hcmd] at h; exact Bool.noConfusion h
  | vList xs => rw [hcmd] at h; exact Bool.noConfusion h

/-- C6 witness: the amended claim at a concrete mapping payload — the ping
command id 3 produces a monotonic report sequence. -/
theorem C6_amended_monotonic_witness :
    resolvesToDict defaultEnv (vDict [("type", vStr "ping")]) = true ∧
    monotonicOK (execute_command defaultEnv st0
      ⟨3, vDict [("type", vStr "ping")]⟩).reports = true :=
  ⟨rfl, C6_amended_monotonic defaultEnv st0 ⟨3, vDict [("type", vStr "ping")]⟩
    rfl⟩

/-- C7, counterexample: a candidate fetched from a direct URL whose declared
version equals the running version 2.1.0, with no force flag, is still
applied — the agent file is overwritten and the restart scheduled —
refuting the claim that an equal-version candidate without force is a
success no-op for every update candidate. -/
theorem C7_counterexample :
    extractVersion codeSameVer = .ok st0.version ∧
    truthy (vBool false) = false ∧
    SUOut.restartScheduled
      (self_update envUrlSame st0 (vStr "http://x") (vBool false)) = true ∧
    SUOut.agentCode
      (self_update envUrlSame st0 (vStr "http://x") (vBool false)) =
      codeSameVer ∧
    codeSameVer ≠ st0.agentCode := by
  exact ⟨rfl, rfl, rfl, rfl, by decide⟩

/-- C7 as amended: only for candidates obtained from the server (no direct
URL) does an equal version without force short-circuit: the result is a
success and no mutation is performed — no backup write, no code write, no
restart. -/
theorem C7_amended_server_shortcircuit :
    ∀ (env : AgentEnv) (st : AgentState) (force : PyVal) (info : UpdateInfo),
      truthy force = false → env.serverUpdate = some info →
      info.version = some st.version →
      pyGet (self_update env st vNone force).result "success" =
          some (vBool true) ∧
        (self_update env st vNone force).agentCode = st.agentCode ∧
        (self_update env st vNone force).backup = st.backup ∧
        (self_update env st vNone force).restartScheduled = false ∧
        (self_update env st vNone force).stage = Stage.alreadyLatest := by
  intro env st force info hf hs hv
  rw [self_update_server_short env st vNone force info rfl hs hv hf]
  exact ⟨rfl, rfl, rfl, rfl, rfl⟩

/-- C7 witness: the amended claim at a concrete server candidate whose
version equals the running 2.1.0. -/
theorem C7_amended_server_shortcircuit_witness :
    pyGet (self_update
        { defaultEnv with
          serverUpdate := some ⟨some "2.1.0", some "NEW CODE",
            Option.none, Option.none⟩ }
        st0 vNone (vBool false)).result "success" = some (vBool true) ∧
    (self_update
        { defaultEnv with
          serverUpdate := some ⟨some "2.1.0", some "NEW CODE",
            Option.none, Option.none⟩ }
        st0 vNone (vBool false)).restartScheduled = false := by
  have h := C7_amended_server_shortcircuit
    { defaultEnv with
      serverUpdate := some ⟨some "2.1.0", some "NEW CODE",
        Option.none, Option.none⟩ }
    st0 (vBool false)
    ⟨some "2.1.0", some "NEW CODE", Option.none, Option.none⟩ rfl rfl rfl
  exact ⟨h.1, h.2.2.2.1⟩

/-- C8: in every iteration of the polling loop, poll_commands runs only when
the connectivity flag is false: a connected flag makes the iteration a
no-op (no fetch, no reports, no state change), and an iteration that did
poll had the flag down. -/
theorem C8_poll_suppressed_while_connected :
    ∀ (env : AgentEnv) (st : AgentState),
      (st.wsConnected = true → polling_iteration env st = (st, [], false)) ∧
      ((polling_iteration env st).2.2 = true → st.wsConnected = false) := by
  intro env st
  constructor
  · intro h
    simp [polling_iteration, h]
  · intro h
    by_cases hw : st.wsConnected
    · rw [polling_iteration, if_pos hw] at h
      exact Bool.noConfusion h
    · simpa using hw


/-- C8 witness: with the flag up and a pending command queued, the iteration
fetches nothing and reports nothing. -/
theorem C8_poll_suppressed_while_connected_witness :
    AgentState.wsConnected { st0 with wsConnected := true } = true ∧
    polling_iteration
        { defaultEnv with
          pending := [⟨1, vDict [("type", vStr "ping")]⟩] }
        { st0 with wsConnected := true } =
      ({ st0 with wsConnected := true }, [], false) :=
  ⟨rfl,
   (C8_poll_suppressed_while_connected
     { defaultEnv with pending := [⟨1, vDict [("type", vStr "ping")]⟩] }
     { st0 with wsConnected := true }).1 rfl⟩

/-- A normally returned mapping passes through with success appended when
absent. -/
theorem execute_plugin_normal_dict (pm : PM) (s : String) (m : Module)
    (h : PyVal → Except String PyVal) (args : PyVal)
    (d : List (String × PyVal))
    (hl : pm.plugins.lookup s = some m) (hm : m.handle = some h)
    (hr : h args = .ok (vDict d)) :
    execute_plugin pm (vStr s) args =
      .ok (if (d.lookup "success").isNone then
        vDict (d ++ [("success", vBool true)])
       else vDict d) := by
  unfold execute_plugin
  dsimp only
  rw [hl]
  dsimp only
  rw [hm]
  dsimp only
  rw [hr]

/-- A normally returned non-mapping is wrapped as a structured success. -/
theorem execute_plugin_normal_bare (pm : PM) (s : String) (m : Module)
    (h : PyVal → Except String PyVal) (args v : PyVal)
    (hl : pm.plugins.lookup s = some m) (hm : m.handle = some h)
    (hr : h args = .ok v) (hnd : isDict v = false) :
    execute_plugin pm (vStr s) args =
      .ok (vDict [("success", vBool true), ("result", v)]) := by
  unfold execute_plugin
  dsimp only
  rw [hl]
  dsimp only
  rw [hm]
  dsimp only
  rw [hr]
  cases v with
  | vDict d => simp [isDict] at hnd
  | vNone => rfl
  | vBool b => rfl
  | vInt n => rfl
  | vStr t => rfl
  | vList xs => rfl

/-- C9: when a unit's entry point returns normally, execute_plugin
normalizes the value: a mapping is passed through with `success = True`
appended exactly when the key is absent, and a non-mapping is wrapped as
the structured result with success True and the value under `result`. -/
theorem C9_result_normalization :
    ∀ (pm : PM) (s : String) (m : Module)
      (h : PyVal → Except String PyVal) (args v : PyVal),
      pm.plugins.lookup s = some m → m.handle = some h → h args = .ok v →
      ((∀ d, v = vDict d →
          execute_plugin pm (vStr s) args =
            .ok (if (d.lookup "success").isNone then
              vDict (d ++ [("success", vBool true)])
             else vDict d)) ∧
       (isDict v = false →
          execute_plugin pm (vStr s) args =
            .ok (vDict [("success", vBool true), ("result", v)]))) := by
  intro pm s m h args v hl hm hr
  constructor
  · intro d hd
    subst hd
    exact execute_plugin_normal_dict pm s m h args d hl hm hr
  · intro hnd
    exact execute_plugin_normal_bare pm s m h args v hl hm hr hnd

/-- C9 witness: the theorem at a registry with an echoing unit (mapping
result without a success key gets one appended) and a unit returning a bare
integer (wrapped as a structured success). -/
theorem C9_result_normalization_witness :
    execute_plugin ⟨[("echo", ⟨some fun a => .ok a⟩)], []⟩ (vStr "echo")
        (vDict [("x", vInt 1)]) =
      .ok (vDict [("x", vInt 1), ("success", vBool true)]) ∧
    execute_plugin ⟨[("bare", ⟨some fun _ => .ok (vInt 3)⟩)], []⟩
        (vStr "bare") (vDict []) =
      .ok (vDict [("success", vBool true), ("result", vInt 3)]) := by
  constructor
  · have h := (C9_result_normalization ⟨[("echo", ⟨some fun a => .ok a⟩)], []⟩
      "echo" ⟨some fun a => .ok a⟩ (fun a => .ok a) (vDict [("x", vInt 1)])
      (vDict [("x", vInt 1)]) rfl rfl rfl).1 [("x", vInt 1)] rfl
    simpa using h
  · exact (C9_result_normalization ⟨[("bare", ⟨some fun _ => .ok (vInt 3)⟩)], []⟩
      "bare" ⟨some fun _ => .ok (vInt 3)⟩ (fun _ => .ok (vInt 3)) (vDict [])
      (vInt 3) rfl rfl rfl).2 rfl

/-- C10: for every mapping payload whose handler body returns normally, the
terminal status reported by execute_command is determined solely by the
truthiness of the handler result's `success` entry with default True, and a
handler result lacking a `success` key — in particular the error mapping
produced for an unrecognized command type — is reported with terminal
status `done`. -/
theorem C10_terminal_status_rule :
    (∀ (env : AgentEnv) (st : AgentState) (cmdId : Int)
        (d : List (String × PyVal)) (h : HOut),
        runHandler env st (vDict d) = .ok h →
        (execute_command_body env st cmdId (vDict d)).reports =
          [⟨cmdId, "processing", Option.none⟩,
           ⟨cmdId,
            if truthy ((pyGet h.result "success").getD (vBool true))
            then "done" else "failed",
            some h.result⟩]) ∧
    (∀ (env : AgentEnv) (st : AgentState) (cmdId : Int)
        (d : List (String × PyVal)),
        knownTypes.any (isStrEq ((pyGet (vDict d) "type").getD vNone)) =
          false →
        runHandler env st (vDict d) =
          .ok ⟨vDict [("error",
            vStr ("Unknown command type: " ++
              pyToString ((pyGet (vDict d) "type").getD vNone)))], st⟩ ∧
        pyGet (vDict [("error",
          vStr ("Unknown command type: " ++
            pyToString ((pyGet (vDict d) "type").getD vNone)))])
          "success" = Option.none ∧
        (execute_command_body env st cmdId (vDict d)).reports.map
          Report.status = ["processing", "done"]) := by
  constructor
  · intro env st cmdId d h hok
    unfold execute_command_body
    dsimp only
    rw [hok]
  · intro env st cmdId d h
    simp only [knownTypes, List.any_cons, List.any_nil, Bool.or_eq_false_iff]
      at h
    obtain ⟨h1, h2, h3, h4, h5, h6, h7, h8, h9, h10, -⟩ := h
    have hres : runHandler env st (vDict d) =
        .ok ⟨vDict [("error",
          vStr ("Unknown command type: " ++
            pyToString ((pyGet (vDict d) "type").getD vNone)))], st⟩ := by
      unfold runHandler
      simp only [h1, h2, h3, h4, h5, h6, h7, h8, h9, h10,
        Bool.false_eq_true, if_false]
    refine ⟨hres, rfl, ?_⟩
    unfold execute_command_body
    dsimp only
    rw [hres]
    rfl

/-- C10 witness: the rule at the unrecognized command type bogus — the
handler result is the error mapping with no success key and the terminal
status is done. -/
theorem C10_terminal_status_rule_witness :
    knownTypes.any (isStrEq ((pyGet (vDict [("type", vStr "bogus")])
      "type").getD vNone)) = false ∧
    (runHandler defaultEnv st0 (vDict [("type", vStr "bogus")]) =
      .ok ⟨vDict [("error",
        vStr ("Unknown command type: " ++
          pyToString ((pyGet (vDict [("type", vStr "bogus")])
            "type").getD vNone)))], st0⟩ ∧
     pyGet (vDict [("error",
       vStr ("Unknown command type: " ++
         pyToString ((pyGet (vDict [("type", vStr "bogus")])
           "type").getD vNone)))]) "success" = Option.none ∧
     (execute_command_body defaultEnv st0 5
        (vDict [("type", vStr "bogus")])).reports.map Report.status =
      ["processing", "done"]) :=
  ⟨rfl, C10_terminal_status_rule.2 defaultEnv st0 5
    [("type", vStr "bogus")] rfl⟩

end AgentModel
